import Mathlib

/-!
Verification of the telephony/AI relay in `main.py`.

The development shallowly embeds the program's core: the token store
(`generate_websocket_token`, `cleanup_expired_tokens`, and the inline
validate-and-consume logic of `handle_media_stream`), the handshake loop of
`handle_media_stream`, the two data pumps (`receive_from_twilio`,
`send_to_twilio`), the interruption controller
(`handle_speech_started_event`), and the base64 decode/re-encode round trip
applied to model audio payloads.  Wall-clock readings (`datetime.now()`) and
the random token value (`secrets.token_urlsafe`) are passed as explicit
parameters; time is measured in seconds as an integer.
-/

namespace Relay

/-! ### Token store (main.py lines 64-79) -/

/-- The process-wide `websocket_tokens` dict: token value -> expiration time.
Embedded as an association list with dict semantics (insertion replaces any
previous binding of the same key). -/
abbrev TokenStore := List (String × Int)

/-- Dict lookup `websocket_tokens[token]` / membership `token in websocket_tokens`. -/
def lookupToken (t : String) : TokenStore → Option Int
  | [] => none
  | p :: rest => if p.1 = t then some p.2 else lookupToken t rest

/-- Dict deletion `del websocket_tokens[token]`. -/
def eraseKey (t : String) : TokenStore → TokenStore
  | [] => []
  | p :: rest => if p.1 = t then eraseKey t rest else p :: eraseKey t rest

/-- Dict assignment `websocket_tokens[token] = expiration`. -/
def storeInsert (store : TokenStore) (t : String) (e : Int) : TokenStore :=
  (t, e) :: eraseKey t store

/-- `generate_websocket_token` (main.py 67-72): stores the fresh token with
expiration `now + 60` seconds.  The random token value and `datetime.now()`
are parameters of the embedding. -/
def generate_websocket_token (store : TokenStore) (token : String) (now : Int) : TokenStore :=
  storeInsert store token (now + 60)

/-- `cleanup_expired_tokens` (main.py 74-79): removes every entry whose
expiration is strictly before `now`. -/
def cleanup_expired_tokens (now : Int) : TokenStore → TokenStore
  | [] => []
  | p :: rest =>
      if p.2 < now then cleanup_expired_tokens now rest
      else p :: cleanup_expired_tokens now rest

/-- Outcome of the token check in `handle_media_stream` (main.py 163-176):
`invalid` closes with reason "Invalid or missing token", `expired` closes with
reason "Token expired", `ok` proceeds to the relay. -/
inductive ValidateOutcome where
  | ok
  | invalid
  | expired
  deriving DecidableEq, Repr

/-- The inline validate-and-consume logic of `handle_media_stream`
(main.py 163-176): a falsy (`None` or empty) or unknown token is invalid and
leaves the store unchanged; a known token past its expiration is deleted and
reported expired; otherwise the token is deleted (single use) and accepted.
`now` is the `datetime.now()` reading at validation time. -/
def validateAndConsume (store : TokenStore) (tok : Option String) (now : Int) :
    ValidateOutcome × TokenStore :=
  match tok with
  | none => (.invalid, store)
  | some t =>
      if t = "" then (.invalid, store)
      else
        match lookupToken t store with
        | none => (.invalid, store)
        | some e =>
            if now > e then (.expired, eraseKey t store)
            else (.ok, eraseKey t store)

/-! ### Session state and the two pumps (main.py 192-304) -/

/-- The connection-specific state shared (via `nonlocal`) by
`receive_from_twilio`, `send_to_twilio` and `handle_speech_started_event`
(main.py 192-197). -/
structure SessionState where
  streamSid : Option String
  latestMediaTimestamp : Int
  lastAssistantItem : Option String
  markQueue : List String
  responseStartTimestamp : Option Int
  deriving DecidableEq, Repr

/-- The session state right after a successful handshake (main.py 192-197):
`stream_sid = initial_stream_sid`, `latest_media_timestamp = 0`,
`last_assistant_item = None`, `mark_queue = []`,
`response_start_timestamp_twilio = None`. -/
def initialSessionState (sid : Option String) : SessionState :=
  { streamSid := sid
    latestMediaTimestamp := 0
    lastAssistantItem := none
    markQueue := []
    responseStartTimestamp := none }

/-- Python truthiness of an optional string (`if token:`, `if stream_sid:`,
`if last_assistant_item:`): `None` and the empty string are falsy. -/
def truthy : Option String → Bool
  | none => false
  | some s => !s.isEmpty

/-- Commands the relay writes to either socket. -/
inductive Command where
  | audioAppend (audio : String)
  | mediaOut (streamSid : Option String) (payload : String)
  | markOut (streamSid : Option String)
  | truncate (itemId : String) (audioEndMs : Int)
  | clear (streamSid : Option String)
  deriving DecidableEq, Repr

/-- Inbound (Twilio-side) frames dispatched by `receive_from_twilio`
(main.py 203-220); any other event kind falls through the if/elif chain. -/
inductive InboundFrame where
  | media (timestampMs : Int) (payload : String)
  | start (streamSid : String)
  | mark
  | other
  deriving DecidableEq, Repr

/-- Model-side events dispatched by `send_to_twilio` (main.py 230-260):
an audio delta (a `response.output_audio.delta` event carrying a `delta`
payload and possibly an `item_id`), a speech-started event, and everything
else (logging only). -/
inductive ModelEvent where
  | audioDelta (itemId : Option String) (delta : String)
  | speechStarted
  | other
  deriving DecidableEq, Repr

/-- One iteration of `receive_from_twilio` (main.py 203-220).  `modelOpen`
embeds the `openai_ws.state.name == 'OPEN'` check guarding the media branch.
Only `stream_sid` and `latest_media_timestamp` are declared `nonlocal` in the
Python function, so in the `start` branch the assignments to
`response_start_timestamp_twilio` and `last_assistant_item` bind fresh
function-local names and leave the shared session state unchanged; the
embedding reproduces exactly that shared-state effect. -/
def receiveStep (modelOpen : Bool) (s : SessionState) : InboundFrame → SessionState × List Command
  | .media ts payload =>
      if modelOpen then
        ({ s with latestMediaTimestamp := ts }, [Command.audioAppend payload])
      else (s, [])
  | .start sid =>
      ({ s with streamSid := some sid, latestMediaTimestamp := 0 }, [])
  | .mark =>
      if s.markQueue.isEmpty then (s, [])
      else ({ s with markQueue := s.markQueue.tail }, [])
  | .other => (s, [])

/-- `handle_speech_started_event` (main.py 264-292): when `mark_queue` is
non-empty and `response_start_timestamp_twilio` is set, compute
`elapsed_time = latest_media_timestamp - response_start_timestamp_twilio`
(no clamping), send a `conversation.item.truncate` for `last_assistant_item`
(if truthy) with `audio_end_ms = elapsed_time`, send a `clear` event for the
current stream, then empty the queue and reset `last_assistant_item` and
`response_start_timestamp_twilio`.  Otherwise do nothing. -/
def handle_speech_started_event (s : SessionState) : SessionState × List Command :=
  match s.responseStartTimestamp, s.markQueue with
  | some rst, _ :: _ =>
      let elapsed : Int := s.latestMediaTimestamp - rst
      let truncCmds : List Command :=
        if truthy s.lastAssistantItem then
          [Command.truncate (s.lastAssistantItem.getD "") elapsed]
        else []
      ({ s with markQueue := [], lastAssistantItem := none, responseStartTimestamp := none },
        truncCmds ++ [Command.clear s.streamSid])
  | _, _ => (s, [])

/-- `send_mark` (main.py 294-302): when the stream id is truthy, emit a mark
event and append `'responsePart'` to the queue. -/
def send_mark (s : SessionState) : SessionState × List Command :=
  if truthy s.streamSid then
    ({ s with markQueue := s.markQueue ++ ["responsePart"] }, [Command.markOut s.streamSid])
  else (s, [])

/-! ### Base64 (main.py line 236)

`send_to_twilio` forwards each model audio payload through
`base64.b64encode(base64.b64decode(delta))`.  The embedding implements
standard base64 (RFC 4648) over byte lists, the codec the Python standard
library implements. -/

/-- The standard base64 alphabet. -/
def b64Alphabet : List Char :=
  "ABCDEFGHIJKLMNOPQRSTUVWXYZabcdefghijklmnopqrstuvwxyz0123456789+/".data

/-- The character encoding a 6-bit group. -/
def sixBitChar (n : Nat) : Char := b64Alphabet.getD n 'A'

/-- The 6-bit group a character decodes to, if it is in the alphabet. -/
def charSixBit (c : Char) : Option Nat :=
  b64Alphabet.findIdx? (fun x => x == c)

/-- `base64.b64encode` on a byte list: 3-byte groups become 4 alphabet
characters; a trailing group of 1 or 2 bytes is padded with `=`. -/
def b64encode : List Nat → List Char
  | [] => []
  | [b1] =>
      [sixBitChar (b1 / 4), sixBitChar (b1 % 4 * 16), '=', '=']
  | [b1, b2] =>
      [sixBitChar (b1 / 4), sixBitChar (b1 % 4 * 16 + b2 / 16),
       sixBitChar (b2 % 16 * 4), '=']
  | b1 :: b2 :: b3 :: rest =>
      sixBitChar (b1 / 4) :: sixBitChar (b1 % 4 * 16 + b2 / 16) ::
        sixBitChar (b2 % 16 * 4 + b3 / 64) :: sixBitChar (b3 % 64) :: b64encode rest

/-- `base64.b64decode` on a character list: groups of 4 characters yield 3
bytes, with `=` padding allowed only in the final group; malformed input
(the exception path in Python) yields `none`. -/
def b64decode : List Char → Option (List Nat)
  | [] => some []
  | c1 :: c2 :: c3 :: c4 :: rest =>
      match charSixBit c1, charSixBit c2 with
      | some n1, some n2 =>
          if c3 = '=' then
            if c4 = '=' ∧ rest = [] then some [n1 * 4 + n2 / 16] else none
          else
            match charSixBit c3 with
            | some n3 =>
                if c4 = '=' then
                  if rest = [] then some [n1 * 4 + n2 / 16, n2 % 16 * 16 + n3 / 4]
                  else none
                else
                  match charSixBit c4 with
                  | some n4 =>
                      match b64decode rest with
                      | some bs =>
                          some ((n1 * 4 + n2 / 16) :: (n2 % 16 * 16 + n3 / 4) ::
                            (n3 % 4 * 64 + n4) :: bs)
                      | none => none
                  | none => none
            | none => none
      | _, _ => none
  | _ => none

/-- The transformation main.py 236 applies to a model audio payload:
`base64.b64encode(base64.b64decode(delta))`; `none` is the exception path. -/
def b64RoundTrip (p : List Char) : Option (List Char) :=
  (b64decode p).map b64encode

/-- String form of `b64RoundTrip` (payloads travel as JSON strings). -/
def b64RoundTripStr (s : String) : Option String :=
  (b64RoundTrip s.data).map String.mk

/-- One iteration of `send_to_twilio` (main.py 230-260).  An audio delta is
decoded and re-encoded (a failing decode is the exception path, `none`),
forwarded as a media frame for the current stream, starts a new spoken turn
when it carries a fresh truthy item id (capturing
`response_start_timestamp_twilio := latest_media_timestamp`), and is followed
by `send_mark`.  A speech-started event delegates to
`handle_speech_started_event` only when `last_assistant_item` is truthy.
Other events are logged only. -/
def sendStep (s : SessionState) : ModelEvent → Option (SessionState × List Command)
  | .audioDelta itemId delta =>
      match b64RoundTripStr delta with
      | none => none
      | some audioPayload =>
          let s1 :=
            if truthy itemId ∧ itemId ≠ s.lastAssistantItem then
              { s with responseStartTimestamp := some s.latestMediaTimestamp,
                       lastAssistantItem := itemId }
            else s
          let marked := send_mark s1
          some (marked.1, Command.mediaOut s.streamSid audioPayload :: marked.2)
  | .speechStarted =>
      if truthy s.lastAssistantItem then some (handle_speech_started_event s)
      else some (s, [])
  | .other => some (s, [])

/-! ### Interleaved relay runs -/

/-- One interleaved input to the relay: an inbound frame handled by
`receive_from_twilio` or a model event handled by `send_to_twilio`. -/
inductive SessionInput where
  | inbound (f : InboundFrame)
  | model (e : ModelEvent)
  deriving DecidableEq, Repr

/-- One scheduler step of the relay. -/
def sessionStep (modelOpen : Bool) (s : SessionState) :
    SessionInput → Option (SessionState × List Command)
  | .inbound f => some (receiveStep modelOpen s f)
  | .model e => sendStep s e

/-- Run the relay over a list of interleaved inputs, accumulating the
commands written to both sockets in order. -/
def runSession (modelOpen : Bool) (s : SessionState) :
    List SessionInput → Option (SessionState × List Command)
  | [] => some (s, [])
  | i :: rest =>
      match sessionStep modelOpen s i with
      | none => none
      | some (s1, cs1) =>
          match runSession modelOpen s1 rest with
          | none => none
          | some (s2, cs2) => some (s2, cs1 ++ cs2)

/-! ### Handshake negotiation (main.py 137-197) -/

/-- Events read by the handshake loop of `handle_media_stream`. -/
inductive HandshakeEvent where
  | connected
  | start (token : Option String) (streamSid : Option String)
  | other (event : String)
  deriving DecidableEq, Repr

/-- Result of handshake negotiation: the relay starts with an initialized
session state, or the socket is closed with a reason string, or the loop is
still blocked awaiting the next message (the `await websocket.receive_text()`
at main.py 142 with the input exhausted). -/
inductive HandshakeOutcome where
  | accepted (session : SessionState) (store : TokenStore)
  | rejected (reason : String) (store : TokenStore)
  | stillWaiting
  deriving DecidableEq, Repr

/-- The handshake loop of `handle_media_stream` (main.py 137-197): skip
`connected` events, reject any event other than `connected`/`start` with
reason "Unexpected event", and on `start` extract the token and stream sid,
validate-and-consume the token, and on success enter the relay with the
initial session state.  The loop has no timeout: with its input exhausted it
stays blocked on the next read. -/
def handshakeLoop (store : TokenStore) (now : Int) : List HandshakeEvent → HandshakeOutcome
  | [] => .stillWaiting
  | .connected :: rest => handshakeLoop store now rest
  | .start tok sid :: _ =>
      match validateAndConsume store tok now with
      | (.ok, store1) => .accepted (initialSessionState sid) store1
      | (.invalid, store1) => .rejected "Invalid or missing token" store1
      | (.expired, store1) => .rejected "Token expired" store1
  | .other _ :: _ => .rejected "Unexpected event" store

/-! ### Lemmas about the token store -/

theorem lookupToken_eraseKey_self (t : String) (store : TokenStore) :
    lookupToken t (eraseKey t store) = none := by
  induction store with
  | nil => rfl
  | cons p rest ih =>
      by_cases hp : p.1 = t
      · simp [eraseKey, hp, ih]
      · simp [eraseKey, lookupToken, hp, ih]

theorem lookupToken_cleanup_none (now : Int) (t : String) (store : TokenStore)
    (h : lookupToken t store = none) :
    lookupToken t (cleanup_expired_tokens now store) = none := by
  induction store with
  | nil => rfl
  | cons p rest ih =>
      rw [lookupToken] at h
      by_cases hp : p.1 = t
      · simp [hp] at h
      · rw [if_neg hp] at h
        by_cases hexp : p.2 < now
        · simp [cleanup_expired_tokens, hexp, ih h]
        · simp [cleanup_expired_tokens, hexp, lookupToken, hp, ih h]

/-! ### Lemmas about base64 -/

theorem charSixBit_sixBitChar_fin :
    ∀ n : Fin 64, charSixBit (sixBitChar n.val) = some n.val := by decide

theorem charSixBit_sixBitChar (n : Nat) (h : n < 64) :
    charSixBit (sixBitChar n) = some n :=
  charSixBit_sixBitChar_fin ⟨n, h⟩

theorem sixBitChar_ne_pad_fin : ∀ n : Fin 64, sixBitChar n.val ≠ '=' := by decide

theorem sixBitChar_ne_pad (n : Nat) (h : n < 64) : sixBitChar n ≠ '=' :=
  sixBitChar_ne_pad_fin ⟨n, h⟩

/-- Decoding inverts encoding on byte lists, so the relay's
decode-then-re-encode round trip is the identity on encoded payloads. -/
theorem b64decode_b64encode :
    ∀ l : List Nat, (∀ b ∈ l, b < 256) → b64decode (b64encode l) = some l
  | [], _ => by simp [b64encode, b64decode]
  | [b1], h => by
      have hb1 : b1 < 256 := h b1 (by simp)
      have e1 := charSixBit_sixBitChar (b1 / 4) (by omega)
      have e2 := charSixBit_sixBitChar (b1 % 4 * 16) (by omega)
      simp [b64encode, b64decode, e1, e2]
      omega
  | [b1, b2], h => by
      have hb1 : b1 < 256 := h b1 (by simp)
      have hb2 : b2 < 256 := h b2 (by simp)
      have e1 := charSixBit_sixBitChar (b1 / 4) (by omega)
      have e2 := charSixBit_sixBitChar (b1 % 4 * 16 + b2 / 16) (by omega)
      have e3 := charSixBit_sixBitChar (b2 % 16 * 4) (by omega)
      have p3 := sixBitChar_ne_pad (b2 % 16 * 4) (by omega)
      simp [b64encode, b64decode, e1, e2, e3, p3]
      omega
  | b1 :: b2 :: b3 :: rest, h => by
      have hb1 : b1 < 256 := h b1 (by simp)
      have hb2 : b2 < 256 := h b2 (by simp)
      have hb3 : b3 < 256 := h b3 (by simp)
      have ih := b64decode_b64encode rest (fun b hb => h b (by simp [hb]))
      have e1 := charSixBit_sixBitChar (b1 / 4) (by omega)
      have e2 := charSixBit_sixBitChar (b1 % 4 * 16 + b2 / 16) (by omega)
      have e3 := charSixBit_sixBitChar (b2 % 16 * 4 + b3 / 64) (by omega)
      have e4 := charSixBit_sixBitChar (b3 % 64) (by omega)
      have p3 := sixBitChar_ne_pad (b2 % 16 * 4 + b3 / 64) (by omega)
      have p4 := sixBitChar_ne_pad (b3 % 64) (by omega)
      simp [b64encode, b64decode, e1, e2, e3, e4, p3, p4, ih]
      omega

/-! ### Claim theorems -/

/-- Inputs of the barge-in scenario: inbound media frames at 0, 20, 40 ms,
a model audio delta with fresh item id "item1", a further media frame at
100 ms, then a speech-started model event. -/
def c1Inputs : List SessionInput :=
  [.inbound (.media 0 ""), .inbound (.media 20 ""), .inbound (.media 40 ""),
   .model (.audioDelta (some "item1") ""), .inbound (.media 100 ""),
   .model .speechStarted]

/-- C1: from the post-handshake state, after media frames at 0/20/40 ms the
audio delta for "item1" sets the response-start timestamp to 40 and the last
assistant item to "item1"; after a further media frame at 100 ms, the
speech-started event makes the controller send a truncate for "item1" with
audio_end_ms = 100 - 40 = 60 to the model, then a clear for the current
stream, after which the mark queue is empty and the last assistant item and
response-start timestamp are absent. -/
theorem C1_interruption_scenario :
    runSession true (initialSessionState (some "S")) (c1Inputs.take 4)
      = some (⟨some "S", 40, some "item1", ["responsePart"], some 40⟩,
          [.audioAppend "", .audioAppend "", .audioAppend "",
           .mediaOut (some "S") "", .markOut (some "S")]) ∧
    runSession true (initialSessionState (some "S")) c1Inputs
      = some (⟨some "S", 100, none, [], none⟩,
          [.audioAppend "", .audioAppend "", .audioAppend "",
           .mediaOut (some "S") "", .markOut (some "S"),
           .audioAppend "", .truncate "item1" 60, .clear (some "S")]) := by
  constructor <;> rfl

/-- C2: a token present in the store and unexpired validates successfully
exactly once: the successful validation removes it from the store, and a
subsequent validation of the same value, at any time, is rejected as
invalid. -/
theorem C2_token_single_use (store : TokenStore) (T : String) (expTime now now2 : Int)
    (hT : ¬ T = "") (hlook : lookupToken T store = some expTime)
    (hfresh : ¬ now > expTime) :
    (validateAndConsume store (some T) now).1 = .ok ∧
    lookupToken T (validateAndConsume store (some T) now).2 = none ∧
    (validateAndConsume (validateAndConsume store (some T) now).2 (some T) now2).1
      = .invalid := by
  have hstep : validateAndConsume store (some T) now = (.ok, eraseKey T store) := by
    simp [validateAndConsume, hT, hlook, hfresh]
  refine ⟨by rw [hstep], ?_, ?_⟩
  · rw [hstep]; exact lookupToken_eraseKey_self T store
  · rw [hstep]; simp [validateAndConsume, hT, lookupToken_eraseKey_self]

theorem C2_token_single_use_witness :
    (¬ ("tok1" : String) = "" ∧ lookupToken "tok1" [("tok1", 60)] = some 60 ∧
      ¬ (30 : Int) > 60) ∧
    ((validateAndConsume [("tok1", 60)] (some "tok1") 30).1 = .ok ∧
      lookupToken "tok1" (validateAndConsume [("tok1", 60)] (some "tok1") 30).2 = none ∧
      (validateAndConsume (validateAndConsume [("tok1", 60)] (some "tok1") 30).2
          (some "tok1") 999).1 = .invalid) :=
  ⟨⟨by decide, by decide, by decide⟩,
    C2_token_single_use [("tok1", 60)] "tok1" 60 30 999 (by decide) (by decide) (by decide)⟩

/-- C3: a start frame arriving mid-relay updates the stream sid and zeroes
the latest media timestamp, but leaves the shared last assistant item and
response-start timestamp untouched: in `receive_from_twilio` only
`stream_sid` and `latest_media_timestamp` are declared `nonlocal`, so the
start branch's assignments to `response_start_timestamp_twilio` and
`last_assistant_item` create function locals and never reach the state the
other pump and the interruption controller read. -/
theorem C3_start_frame_stale_state :
    receiveStep true ⟨some "S1", 40, some "item1", ["responsePart"], some 40⟩ (.start "S2")
      = (⟨some "S2", 0, some "item1", ["responsePart"], some 40⟩, []) := rfl

/-- Inputs reaching a state where the latest media timestamp (0) is behind
the response-start timestamp (40): a media frame at 40 ms, an audio delta
for "item1", a non-monotonic media frame at 0 ms, then speech started. -/
def c4Inputs : List SessionInput :=
  [.inbound (.media 40 ""), .model (.audioDelta (some "item1") ""),
   .inbound (.media 0 ""), .model .speechStarted]

/-- The audio_end_ms offsets of the truncate commands in a command list. -/
def truncateOffsets (cmds : List Command) : List Int :=
  cmds.filterMap fun c =>
    match c with
    | .truncate _ off => some off
    | _ => none

/-- C4 counterexample: in a reachable session where the latest media
timestamp (0) is smaller than the response-start timestamp (40), the
truncate command is sent with audio_end_ms = -40, not with the claimed
clamped offset 0. -/
theorem C4_counterexample :
    (runSession true (initialSessionState (some "S")) c4Inputs).map
        (fun r => truncateOffsets r.2) = some [-40] ∧
    ¬ ((-40 : Int) = 0) := ⟨rfl, by decide⟩

/-- C4 amended: the truncation offset the controller sends is exactly
`latestMediaTimestampMs - responseStartTimestampMs`, with no clamping: when
the latest media timestamp is behind the response start the offset sent is
negative.  The computation is total — a non-monotonic timestamp never makes
the handler fail. -/
theorem C4_truncate_offset_unclamped (s : SessionState) (rst : Int) (item : String)
    (h1 : s.responseStartTimestamp = some rst) (h2 : s.markQueue ≠ [])
    (h3 : s.lastAssistantItem = some item) (h4 : ¬ item = "") :
    handle_speech_started_event s
      = ({ s with
            markQueue := []
            lastAssistantItem := none
            responseStartTimestamp := none },
         [Command.truncate item (s.latestMediaTimestamp - rst),
          Command.clear s.streamSid]) := by
  rcases hq : s.markQueue with _ | ⟨m, ms⟩
  · exact absurd hq h2
  · have hie : item.isEmpty = false := by
      cases he : item.isEmpty with
      | false => rfl
      | true => exact absurd ((String.isEmpty_iff item).mp he) h4
    simp [handle_speech_started_event, h1, hq, h3, truthy, hie]

theorem C4_truncate_offset_unclamped_witness :
    ((⟨some "S", 0, some "item1", ["responsePart"], some 40⟩ :
        SessionState).responseStartTimestamp = some 40 ∧
      (⟨some "S", 0, some "item1", ["responsePart"], some 40⟩ :
        SessionState).markQueue ≠ [] ∧
      (⟨some "S", 0, some "item1", ["responsePart"], some 40⟩ :
        SessionState).lastAssistantItem = some "item1" ∧
      ¬ ("item1" : String) = "") ∧
    handle_speech_started_event ⟨some "S", 0, some "item1", ["responsePart"], some 40⟩
      = (⟨some "S", 0, none, [], none⟩,
         [Command.truncate "item1" ((0 : Int) - 40), Command.clear (some "S")]) :=
  ⟨⟨rfl, by decide, rfl, by decide⟩,
    C4_truncate_offset_unclamped _ 40 "item1" rfl (by decide) rfl (by decide)⟩

/-- C5: every payload in the image of base64 encoding — every payload the
model emits for its audio — passes through the relay's
decode-then-re-encode unchanged: the media frame forwarded downstream
carries exactly the payload of the audio delta. -/
theorem C5_payload_passthrough (s : SessionState) (itemId : Option String)
    (B : List Nat) (hB : ∀ b ∈ B, b < 256) :
    ∃ s1 rest, sendStep s (.audioDelta itemId (String.mk (b64encode B)))
      = some (s1, Command.mediaOut s.streamSid (String.mk (b64encode B)) :: rest) := by
  have hd : (String.mk (b64encode B)).data = b64encode B := rfl
  have hrt : b64RoundTripStr (String.mk (b64encode B))
      = some (String.mk (b64encode B)) := by
    simp [b64RoundTripStr, b64RoundTrip, hd, b64decode_b64encode B hB]
  simp only [sendStep]
  rw [hrt]
  exact ⟨_, _, rfl⟩

theorem C5_payload_passthrough_witness :
    (∀ b ∈ [(0 : Nat), 255, 16, 77], b < 256) ∧
    ∃ s1 rest, sendStep (initialSessionState (some "S"))
        (.audioDelta (some "item1") (String.mk (b64encode [0, 255, 16, 77])))
      = some (s1, Command.mediaOut (initialSessionState (some "S")).streamSid
          (String.mk (b64encode [0, 255, 16, 77])) :: rest) :=
  ⟨by decide, C5_payload_passthrough _ _ _ (by decide)⟩

/-- C6 counterexample: a token issued at time 0 carries expiry 60, but when
a sweep runs at time 70 before a validation attempt at time 80, the
validation is rejected as invalid ("Invalid or missing token"), not as
expired ("Token expired") as the claim states. -/
theorem C6_counterexample :
    lookupToken "tok1" (generate_websocket_token [] "tok1" 0) = some 60 ∧
    (validateAndConsume (cleanup_expired_tokens 70 (generate_websocket_token [] "tok1" 0))
        (some "tok1") 80).1 = .invalid ∧
    (validateAndConsume (cleanup_expired_tokens 70 (generate_websocket_token [] "tok1" 0))
        (some "tok1") 80).1 ≠ .expired := by decide

/-- C6 amended: the stored expiry is issuance time plus 60 seconds, and a
validation attempted more than 60 seconds after issuance always fails — but
the outcome depends on whether a sweep already removed the token: expired
("Token expired") while the token is still stored, invalid ("Invalid or
missing token") once a sweep past the expiry has removed it. -/
theorem C6_expiry_60s (store : TokenStore) (T : String) (issuedAt now sweepTime : Int)
    (hT : ¬ T = "") (hlate : now > issuedAt + 60) (hsweep : issuedAt + 60 < sweepTime) :
    lookupToken T (generate_websocket_token store T issuedAt) = some (issuedAt + 60) ∧
    (validateAndConsume (generate_websocket_token store T issuedAt) (some T) now).1
      = .expired ∧
    (validateAndConsume
        (cleanup_expired_tokens sweepTime (generate_websocket_token store T issuedAt))
        (some T) now).1 = .invalid := by
  have hlook : lookupToken T (generate_websocket_token store T issuedAt)
      = some (issuedAt + 60) := by
    simp [generate_websocket_token, storeInsert, lookupToken]
  refine ⟨hlook, ?_, ?_⟩
  · simp [validateAndConsume, hT, hlook, hlate]
  · have hgone : lookupToken T
        (cleanup_expired_tokens sweepTime (generate_websocket_token store T issuedAt))
        = none := by
      have : cleanup_expired_tokens sweepTime (generate_websocket_token store T issuedAt)
          = cleanup_expired_tokens sweepTime (eraseKey T store) := by
        simp [generate_websocket_token, storeInsert, cleanup_expired_tokens, hsweep]
      rw [this]
      exact lookupToken_cleanup_none sweepTime T (eraseKey T store)
        (lookupToken_eraseKey_self T store)
    simp [validateAndConsume, hT, hgone]

theorem C6_expiry_60s_witness :
    (¬ ("tok1" : String) = "" ∧ (80 : Int) > 0 + 60 ∧ (0 : Int) + 60 < 70) ∧
    (lookupToken "tok1" (generate_websocket_token [("other", 5)] "tok1" 0)
        = some (0 + 60) ∧
      (validateAndConsume (generate_websocket_token [("other", 5)] "tok1" 0)
          (some "tok1") 80).1 = .expired ∧
      (validateAndConsume
          (cleanup_expired_tokens 70 (generate_websocket_token [("other", 5)] "tok1" 0))
          (some "tok1") 80).1 = .invalid) :=
  ⟨⟨by decide, by decide, by decide⟩,
    C6_expiry_60s [("other", 5)] "tok1" 0 80 70 (by decide) (by decide) (by decide)⟩

/-- C7: a handshake of any number of connected events followed by a start
event carrying a valid token and a stream sid succeeds and enters the relay
with stream sid set and zeroed timing state (latest media timestamp 0, no
last assistant item, empty mark queue, no response-start timestamp); zero
connected events also succeed, and every repeated connected event is
silently skipped. -/
theorem C7_handshake_success (n : Nat) (store : TokenStore) (T S : String)
    (expTime now : Int) (hT : ¬ T = "") (hlook : lookupToken T store = some expTime)
    (hfresh : ¬ now > expTime) :
    handshakeLoop store now (List.replicate n .connected ++ [.start (some T) (some S)])
      = .accepted ⟨some S, 0, none, [], none⟩ (eraseKey T store) := by
  induction n with
  | zero =>
      simp only [List.replicate, List.nil_append]
      simp [handshakeLoop, validateAndConsume, hT, hlook, hfresh, initialSessionState]
  | succ k ih =>
      simp only [List.replicate_succ, List.cons_append]
      simpa only [handshakeLoop] using ih

theorem C7_handshake_success_witness :
    (¬ ("tok" : String) = "" ∧ lookupToken "tok" [("tok", 100)] = some 100 ∧
      ¬ (50 : Int) > 100) ∧
    handshakeLoop [("tok", 100)] 50
        (List.replicate 2 .connected ++ [.start (some "tok") (some "S1")])
      = .accepted ⟨some "S1", 0, none, [], none⟩ (eraseKey "tok" [("tok", 100)]) :=
  ⟨⟨by decide, by decide, by decide⟩,
    C7_handshake_success 2 [("tok", 100)] "tok" "S1" 100 50
      (by decide) (by decide) (by decide)⟩

/-- C8: a speech-started model event is a complete no-op — no truncate, no
clear, no state change — whenever the last assistant item is absent, the
mark queue is empty, or the response-start timestamp is unset. -/
theorem C8_speech_started_no_op (s : SessionState)
    (h : s.lastAssistantItem = none ∨ s.markQueue = [] ∨
      s.responseStartTimestamp = none) :
    sendStep s .speechStarted = some (s, []) := by
  by_cases ht : truthy s.lastAssistantItem = true
  · have hcase : s.markQueue = [] ∨ s.responseStartTimestamp = none := by
      rcases h with h | h | h
      · rw [h] at ht; simp [truthy] at ht
      · exact Or.inl h
      · exact Or.inr h
    have hnoop : handle_speech_started_event s = (s, []) := by
      rcases hcase with h2 | h2
      · rcases hr : s.responseStartTimestamp with _ | rst <;>
          simp [handle_speech_started_event, hr, h2]
      · simp [handle_speech_started_event, h2]
    simp [sendStep, ht, hnoop]
  · simp [sendStep, ht]

theorem C8_speech_started_no_op_witness :
    ((⟨some "S", 100, none, ["responsePart"], some 40⟩ :
        SessionState).lastAssistantItem = none ∨
      (⟨some "S", 100, none, ["responsePart"], some 40⟩ :
        SessionState).markQueue = [] ∨
      (⟨some "S", 100, none, ["responsePart"], some 40⟩ :
        SessionState).responseStartTimestamp = none) ∧
    sendStep ⟨some "S", 100, none, ["responsePart"], some 40⟩ .speechStarted
      = some (⟨some "S", 100, none, ["responsePart"], some 40⟩, []) :=
  ⟨Or.inl rfl, C8_speech_started_no_op _ (Or.inl rfl)⟩

/-- After any number of connected events and no start event, the handshake
loop is still blocked awaiting the next message. -/
theorem handshakeLoop_connected_replicate (store : TokenStore) (now : Int) (n : Nat) :
    handshakeLoop store now (List.replicate n .connected) = .stillWaiting := by
  induction n with
  | zero => rfl
  | succ k ih => simpa only [List.replicate_succ, handshakeLoop] using ih

/-- C9 counterexample: the handshake loop has no timeout.  From an empty
store at time 0, after a million connected events and no start event the
negotiator is still blocked awaiting the next message rather than failing
with a timeout; no outcome of the loop is a timeout failure. -/
theorem C9_counterexample :
    handshakeLoop [] 0 (List.replicate 1000000 HandshakeEvent.connected)
      = .stillWaiting :=
  handshakeLoop_connected_replicate [] 0 1000000

/-- C9 amended: for every inbound handshake sequence consisting only of
connected events — hence never containing a start event — the handshake read
loop stays blocked awaiting the next message indefinitely: there is no
bounded wait and no timeout outcome; the loop ends only when the connection
closes or a non-connected, non-start event arrives. -/
theorem C9_handshake_waits_indefinitely (store : TokenStore) (now : Int)
    (events : List HandshakeEvent) (h : ∀ e ∈ events, e = .connected) :
    handshakeLoop store now events = .stillWaiting := by
  induction events with
  | nil => rfl
  | cons e rest ih =>
      have he : e = .connected := h e (by simp)
      subst he
      simpa only [handshakeLoop] using ih fun e2 he2 => h e2 (by simp [he2])

theorem C9_handshake_waits_indefinitely_witness :
    (∀ e ∈ [HandshakeEvent.connected, .connected, .connected], e = .connected) ∧
    handshakeLoop [("tok", 100)] 50 [.connected, .connected, .connected]
      = .stillWaiting :=
  ⟨by decide, C9_handshake_waits_indefinitely [("tok", 100)] 50 _ (by decide)⟩

/-- C10: validating a known but expired token deletes it from the store on
that error path, so a later validation of the same value, at any time, is
rejected as invalid ("Invalid or missing token"), not as expired. -/
theorem C10_expired_validation_deletes (store : TokenStore) (T : String)
    (expTime now now2 : Int) (hT : ¬ T = "")
    (hlook : lookupToken T store = some expTime) (hlate : now > expTime) :
    (validateAndConsume store (some T) now).1 = .expired ∧
    (validateAndConsume store (some T) now).2 = eraseKey T store ∧
    lookupToken T (validateAndConsume store (some T) now).2 = none ∧
    (validateAndConsume (validateAndConsume store (some T) now).2 (some T) now2).1
      = .invalid := by
  have hstep : validateAndConsume store (some T) now = (.expired, eraseKey T store) := by
    simp [validateAndConsume, hT, hlook, hlate]
  refine ⟨by rw [hstep], by rw [hstep], ?_, ?_⟩
  · rw [hstep]; exact lookupToken_eraseKey_self T store
  · rw [hstep]; simp [validateAndConsume, hT, lookupToken_eraseKey_self]

theorem C10_expired_validation_deletes_witness :
    (¬ ("tok1" : String) = "" ∧ lookupToken "tok1" [("tok1", 60)] = some 60 ∧
      (80 : Int) > 60) ∧
    ((validateAndConsume [("tok1", 60)] (some "tok1") 80).1 = .expired ∧
      (validateAndConsume [("tok1", 60)] (some "tok1") 80).2 = eraseKey "tok1" [("tok1", 60)] ∧
      lookupToken "tok1" (validateAndConsume [("tok1", 60)] (some "tok1") 80).2 = none ∧
      (validateAndConsume (validateAndConsume [("tok1", 60)] (some "tok1") 80).2
          (some "tok1") 999).1 = .invalid) :=
  ⟨⟨by decide, by decide, by decide⟩,
    C10_expired_validation_deletes [("tok1", 60)] "tok1" 60 80 999
      (by decide) (by decide) (by decide)⟩

end Relay
